import Mathlib

/-!
Shallow embedding of the `light_state_management` Home Assistant integration
(`src/__init__.py`, `src/const.py`, `src/config_flow.py`).

The manager keeps an in-memory map from light entity id to a captured
attribute snapshot and a map from motion-sensor id to an activity flag.
Handlers are embedded as pure functions from the manager state (plus the
host-provided environment: the current-state lookup `hass.states.get`, the
light-driver acknowledgment oracle for `hass.services.async_call`) to the
new manager state together with the list of emitted effects (bus events and
service commands), in emission order.
-/

namespace LightStateManagement

/-! ### Constants (from `src/const.py` and `homeassistant.const`) -/

def DOMAIN : String := "light_state_management"

def CONF_LIGHTS : String := "lights"
def CONF_MOTION_SENSORS : String := "motion_sensors"
def CONF_TRANSITION : String := "transition"
def CONF_SAVE_INTERVAL : String := "save_interval"

def DEFAULT_TRANSITION : Rat := 1
def DEFAULT_SAVE_INTERVAL : Int := 300

def ATTR_BRIGHTNESS : String := "brightness"
def ATTR_COLOR_TEMP : String := "color_temp"
def ATTR_HS_COLOR : String := "hs_color"
def ATTR_RGB_COLOR : String := "rgb_color"
def ATTR_XY_COLOR : String := "xy_color"
def ATTR_EFFECT : String := "effect"

def EVENT_STATE_SAVED : String := "light_state_saved"
def EVENT_STATE_RESTORED : String := "light_state_restored"

/-- Host constant `homeassistant.const.STATE_ON`. -/
def STATE_ON : String := "on"

/-- Host constant `homeassistant.const.SERVICE_TURN_ON`. -/
def SERVICE_TURN_ON : String := "turn_on"

/-- Embedding of Python `str.startswith`: character-list comparison.
(Structurally recursive, unlike `String.startsWith`, so that concrete
instances evaluate inside the kernel.) -/
def strStartsWith (s pre : String) : Bool :=
  pre.data.isPrefixOf s.data

/-! ### Association-list maps

Python `dict` keyed by entity-id strings, embedded as association lists:
insertion overwrites in place (as `d[k] = v` does), `pop(k, None)` removes
the key if present. -/

/-- Lookup of a key in an association list (first occurrence). -/
def alookup {β : Type} (m : List (String × β)) (k : String) : Option β :=
  match m with
  | [] => none
  | (k', v') :: rest => if k' = k then some v' else alookup rest k

/-- Insert-or-overwrite, keeping the position of an existing key, as a
Python dict assignment does. -/
def ainsert {β : Type} (m : List (String × β)) (k : String) (v : β) :
    List (String × β) :=
  match m with
  | [] => [(k, v)]
  | (k', v') :: rest =>
      if k' = k then (k, v) :: rest else (k', v') :: ainsert rest k v

/-- Removal of a key if present, as Python `dict.pop(k, None)` does. -/
def aerase {β : Type} (m : List (String × β)) (k : String) :
    List (String × β) :=
  match m with
  | [] => []
  | (k', v') :: rest =>
      if k' = k then aerase rest k else (k', v') :: aerase rest k

/-! ### Data model -/

/-- An attribute value carried by a light's attribute dictionary.  The
manager only copies these values around, never inspects them, so the exact
constructors merely have to cover the shapes that occur (numbers for
brightness and color temperature, tuples for the color spaces, a string for
the effect name). -/
inductive Val where
  | num (n : Int)
  | pair (a b : Rat)
  | triple (a b c : Int)
  | str (v : String)
deriving DecidableEq, Repr

/-- A host `State` object as far as the manager reads it: the reported
state string and the attribute dictionary. -/
structure HAState where
  state : String
  attributes : List (String × Val)
deriving DecidableEq, Repr

/-- A stored snapshot, the dict built by `_get_light_state`: the `"state"`
key held separately, the remaining attribute keys in insertion order. -/
structure LightData where
  state : String
  attrs : List (String × Val)
deriving DecidableEq, Repr

/-- Payload of a `light.turn_on` service call as built by
`_handle_restore_state`: `\x7b"entity_id": ..., "transition": ...\x7d`
updated with the snapshot's non-`"state"` items. -/
structure ServiceData where
  entity_id : String
  transition : Rat
  attrs : List (String × Val)
deriving DecidableEq, Repr

/-- An observable effect of a handler, in emission order: an event fired on
the bus (`hass.bus.fire`) or a service command issued
(`hass.services.async_call`). -/
inductive Effect where
  | fire (event : String) (entity_id : String) (data : LightData)
  | call (domain : String) (service : String) (data : ServiceData)
deriving DecidableEq, Repr

/-- The config-entry payload as read by the manager: the four recognized
keys, each possibly absent (`entry.data.get`). -/
structure EntryData where
  lights : Option (List String)
  motion_sensors : Option (List String)
  transition : Option Rat
  save_interval : Option Int
deriving DecidableEq, Repr

/-- A config entry: the original `data` mapping and the `options` mapping
written by the options flow.  The manager reads only `data`. -/
structure ConfigEntry where
  data : EntryData
  options : EntryData
deriving DecidableEq, Repr

/-- The mutable state of a `LightStateManager`: `_states`,
`_motion_active`, `_setup_complete`. -/
structure ManagerState where
  states : List (String × LightData)
  motion_active : List (String × Bool)
  setup_complete : Bool
deriving DecidableEq, Repr

/-- The initial state set by `__init__`. -/
def initialState : ManagerState :=
  { states := [], motion_active := [], setup_complete := false }

/-! ### Handlers -/

/-- The tuple of attribute names scanned by `_get_light_state`. -/
def trackedAttrs : List String :=
  [ATTR_BRIGHTNESS, ATTR_COLOR_TEMP, ATTR_HS_COLOR, ATTR_RGB_COLOR,
   ATTR_XY_COLOR, ATTR_EFFECT]

/-- Embeds `_get_light_state`: the reported state string plus whichever tracked
attributes are present, in the tuple's order. -/
def get_light_state (st : HAState) : LightData :=
  { state := st.state,
    attrs := trackedAttrs.filterMap
      (fun a => (alookup st.attributes a).map (fun v => (a, v))) }

/-- Embeds `_handle_save_state`: for each entity id in input order, skip ids not
in the `light.` domain, skip ids with no current state, otherwise store the
snapshot (overwriting) and fire `light_state_saved`.  `getState` embeds
`hass.states.get`. -/
def handle_save_state (getState : String → Option HAState)
    (entity_ids : List String) (s : ManagerState) :
    ManagerState × List Effect :=
  match entity_ids with
  | [] => (s, [])
  | entity_id :: rest =>
      if !(strStartsWith entity_id "light.") then
        handle_save_state getState rest s
      else
        match getState entity_id with
        | none => handle_save_state getState rest s
        | some st =>
            let data := get_light_state st
            let s' := { s with states := ainsert s.states entity_id data }
            let r := handle_save_state getState rest s'
            (r.1, Effect.fire EVENT_STATE_SAVED entity_id data :: r.2)

/-- The transition value read by `_handle_restore_state`:
`entry.data.get(CONF_TRANSITION, DEFAULT_TRANSITION)`. -/
def transition_of (e : ConfigEntry) : Rat :=
  e.data.transition.getD DEFAULT_TRANSITION

/-- Loop body of `_handle_restore_state` over the entity-id list.
`driver` embeds the awaited `hass.services.async_call("light", "turn_on",
..., blocking=True)`: `true` means the command was acknowledged, `false`
that it raised, which aborts the loop (the exception propagates).  Returns
the effects emitted in order and whether the loop ran to completion. -/
def restore_go (driver : ServiceData → Bool) (transition : Rat)
    (states : List (String × LightData)) (entity_ids : List String) :
    List Effect × Bool :=
  match entity_ids with
  | [] => ([], true)
  | entity_id :: rest =>
      match alookup states entity_id with
      | none => restore_go driver transition states rest
      | some state_data =>
          if state_data.state ≠ STATE_ON then
            restore_go driver transition states rest
          else
            let service_data : ServiceData :=
              { entity_id := entity_id, transition := transition,
                attrs := state_data.attrs.filter (fun p => p.1 ≠ "state") }
            if driver service_data then
              let r := restore_go driver transition states rest
              (Effect.call "light" SERVICE_TURN_ON service_data ::
                 Effect.fire EVENT_STATE_RESTORED entity_id state_data ::
                 r.1, r.2)
            else
              ([Effect.call "light" SERVICE_TURN_ON service_data], false)

/-- Embeds `_handle_restore_state`: reads the configured transition, walks the
entity ids, never writes the manager state.  The returned `Bool` is `false`
when a driver command raised and the exception propagated out. -/
def handle_restore_state (driver : ServiceData → Bool) (e : ConfigEntry)
    (entity_ids : List String) (s : ManagerState) :
    ManagerState × List Effect × Bool :=
  (s, restore_go driver (transition_of e) s.states entity_ids)

/-- Embeds `_handle_clear_states`: pop each listed id from the store; nothing is
fired or called. -/
def handle_clear_states (entity_ids : List String) (s : ManagerState) :
    ManagerState × List Effect :=
  (entity_ids.foldl (fun st entity_id =>
      { st with states := aerase st.states entity_id }) s, [])

/-- The default light list `entry.data.get(CONF_LIGHTS, [])`. -/
def lights_of (e : ConfigEntry) : List String :=
  e.data.lights.getD []

/-- Embeds `_handle_interval_save`: a timer tick; no-op before setup completes,
otherwise a save over the configured default light list. -/
def handle_interval_save (getState : String → Option HAState)
    (e : ConfigEntry) (s : ManagerState) : ManagerState × List Effect :=
  if !s.setup_complete then (s, [])
  else handle_save_state getState (lights_of e) s

/-- Embeds `_handle_motion_change`: no-op before setup completes; otherwise, if
any motion flag is set, schedule (fire-and-forget) a restore over the
configured default light list.  Returns the entity-id list of the scheduled
restore task, if one was created. -/
def handle_motion_change (e : ConfigEntry) (s : ManagerState) :
    Option (List String) :=
  if !s.setup_complete then none
  else if s.motion_active.any (fun p => p.2) then some (lights_of e)
  else none

/-- The `handle_motion` closure registered on the `state_changed` event:
ignore ids outside the captured `motion_sensors` list, ignore events with
no `new_state`, otherwise record whether the new state equals `STATE_ON`
and run `_handle_motion_change`.  Returns the updated manager state and the
scheduled restore's entity-id list, if any. -/
def handle_motion (e : ConfigEntry) (motion_sensors : List String)
    (entity_id : String) (new_state : Option HAState) (s : ManagerState) :
    ManagerState × Option (List String) :=
  if !(motion_sensors.contains entity_id) then (s, none)
  else
    match new_state with
    | none => (s, none)
    | some st =>
        let m' := ainsert s.motion_active entity_id (st.state == STATE_ON)
        let s' := { s with motion_active := m' }
        (s', handle_motion_change e s')

/-- The save-interval value read by `async_setup`:
`entry.data.get(CONF_SAVE_INTERVAL, DEFAULT_SAVE_INTERVAL)`. -/
def save_interval_of (e : ConfigEntry) : Int :=
  e.data.save_interval.getD DEFAULT_SAVE_INTERVAL

/-- Whether `async_setup` registers the recurring timer
(`if save_interval > 0`). -/
def timerRegistered (e : ConfigEntry) : Bool :=
  save_interval_of e > 0

/-- The motion-sensor list the `handle_motion` closure is registered with,
when `async_setup` registers a listener at all (the walrus test
`if motion_sensors := entry.data.get(CONF_MOTION_SENSORS)` is Python
truthiness: `None` and the empty list both skip registration). -/
def motionListener (e : ConfigEntry) : Option (List String) :=
  match e.data.motion_sensors with
  | none => none
  | some ms => if ms.isEmpty then none else some ms

/-! ### Observers used by the verification statements -/

/-- Condition under which `_handle_save_state` skips an entity id: wrong
domain, or no current state reported by the host. -/
def skipSave (getState : String → Option HAState) (entity_id : String) :
    Bool :=
  !(strStartsWith entity_id "light.") || (getState entity_id).isNone

/-- Whether an effect is a `turn_off` service command. -/
def isTurnOffCmd : Effect → Bool
  | Effect.call _ sv _ => sv == "turn_off"
  | Effect.fire _ _ _ => false

/-- The entity id an effect concerns. -/
def effectEntity : Effect → String
  | Effect.fire _ entity_id _ => entity_id
  | Effect.call _ _ sd => sd.entity_id

/-- Condition under which `_handle_restore_state` skips an entity id: no
stored snapshot, or a snapshot whose captured state is not `on`. -/
def skippedAtRestore (s : ManagerState) (entity_id : String) : Bool :=
  match alookup s.states entity_id with
  | none => true
  | some d => d.state ≠ STATE_ON

/-- Invariant of the snapshot store: every key is in the `light.` domain. -/
def storeKeysLight (m : List (String × LightData)) : Bool :=
  m.all (fun p => strStartsWith p.1 "light.")

/-! ### Lemmas on the association-list maps -/

theorem alookup_ainsert_self {β : Type} (m : List (String × β)) (k : String)
    (v : β) : alookup (ainsert m k v) k = some v := by
  induction m with
  | nil => simp [ainsert, alookup]
  | cons p rest ih =>
      obtain ⟨k', v'⟩ := p
      by_cases h : k' = k
      · simp [ainsert, h, alookup]
      · simp [ainsert, h, alookup, ih]

theorem alookup_ainsert_ne {β : Type} (m : List (String × β)) (k j : String)
    (v : β) (h : j ≠ k) : alookup (ainsert m k v) j = alookup m j := by
  have hkj : ¬ k = j := fun hc => h hc.symm
  induction m with
  | nil => simp [ainsert, alookup, hkj]
  | cons p rest ih =>
      obtain ⟨k', v'⟩ := p
      by_cases hk : k' = k
      · subst hk
        simp [ainsert, alookup, hkj]
      · simp [ainsert, hk, alookup, ih]

theorem alookup_aerase {β : Type} (m : List (String × β)) (k j : String) :
    alookup (aerase m k) j = if j = k then none else alookup m j := by
  induction m with
  | nil => simp [aerase, alookup]
  | cons p rest ih =>
      obtain ⟨k', v'⟩ := p
      by_cases hk : k' = k
      · subst hk
        by_cases hj : j = k'
        · subst hj; simp [aerase, alookup, ih]
        · simp [aerase, alookup, hj, ih, Ne.symm hj]
      · by_cases hj : j = k
        · have hk'j : ¬ k' = j := by rw [hj]; exact hk
          subst hj
          simp [aerase, alookup, hk, ih, hk'j]
        · simp [aerase, alookup, hk, hj, ih]

theorem all_keys_ainsert {β : Type} (p : String → Bool)
    (m : List (String × β)) (k : String) (v : β)
    (hm : m.all (fun q => p q.1) = true) (hk : p k = true) :
    (ainsert m k v).all (fun q => p q.1) = true := by
  induction m with
  | nil => simp [ainsert, hk]
  | cons q rest ih =>
      obtain ⟨k', v'⟩ := q
      simp only [List.all_cons, Bool.and_eq_true] at hm
      by_cases h : k' = k
      · simp [ainsert, h, hk, hm.2]
      · simp [ainsert, h, hm.1, ih hm.2]

theorem all_keys_aerase {β : Type} (p : String → Bool)
    (m : List (String × β)) (k : String)
    (hm : m.all (fun q => p q.1) = true) :
    (aerase m k).all (fun q => p q.1) = true := by
  induction m with
  | nil => simp [aerase]
  | cons q rest ih =>
      obtain ⟨k', v'⟩ := q
      simp only [List.all_cons, Bool.and_eq_true] at hm
      by_cases h : k' = k
      · simp [aerase, h, ih hm.2]
      · simp [aerase, h, hm.1, ih hm.2]

/-! ### Lemmas on the save handler -/

theorem handle_save_state_nil (g : String → Option HAState)
    (s : ManagerState) : handle_save_state g [] s = (s, []) := rfl

theorem handle_save_state_skip (g : String → Option HAState) (i : String)
    (rest : List String) (s : ManagerState) (h : skipSave g i = true) :
    handle_save_state g (i :: rest) s = handle_save_state g rest s := by
  rw [skipSave, Bool.or_eq_true] at h
  rcases h with h | h
  · simp [handle_save_state, h]
  · rw [Option.isNone_iff_eq_none] at h
    by_cases hd : strStartsWith i "light."
    · simp [handle_save_state, hd, h]
    · simp [handle_save_state, hd]

theorem handle_save_state_append (g : String → Option HAState)
    (l₁ l₂ : List String) (s : ManagerState) :
    handle_save_state g (l₁ ++ l₂) s =
      ((handle_save_state g l₂ (handle_save_state g l₁ s).1).1,
       (handle_save_state g l₁ s).2 ++
         (handle_save_state g l₂ (handle_save_state g l₁ s).1).2) := by
  induction l₁ generalizing s with
  | nil => simp [handle_save_state]
  | cons i rest ih =>
      by_cases hd : strStartsWith i "light."
      · cases hg : g i with
        | none => simp [handle_save_state, hd, hg, ih]
        | some st => simp [handle_save_state, hd, hg, ih]
      · simp [handle_save_state, hd, ih]

theorem handle_save_state_frame (g : String → Option HAState)
    (ids : List String) (s : ManagerState) :
    (handle_save_state g ids s).1.motion_active = s.motion_active ∧
    (handle_save_state g ids s).1.setup_complete = s.setup_complete := by
  induction ids generalizing s with
  | nil => simp [handle_save_state]
  | cons i rest ih =>
      by_cases hd : strStartsWith i "light."
      · cases hg : g i with
        | none => simpa [handle_save_state, hd, hg] using ih s
        | some st => simpa [handle_save_state, hd, hg] using ih _
      · simpa [handle_save_state, hd] using ih s

theorem handle_save_state_keys (g : String → Option HAState)
    (ids : List String) (s : ManagerState)
    (hs : storeKeysLight s.states = true) :
    storeKeysLight (handle_save_state g ids s).1.states = true := by
  induction ids generalizing s with
  | nil => exact hs
  | cons i rest ih =>
      by_cases hd : strStartsWith i "light."
      · cases hg : g i with
        | none =>
            rw [show handle_save_state g (i :: rest) s =
              handle_save_state g rest s by simp [handle_save_state, hd, hg]]
            exact ih s hs
        | some st =>
            have hstep : (handle_save_state g (i :: rest) s).1 =
                (handle_save_state g rest
                  { s with states :=
                      ainsert s.states i (get_light_state st) }).1 := by
              simp [handle_save_state, hd, hg]
            rw [hstep]
            exact ih _ (all_keys_ainsert (fun x => strStartsWith x "light.")
              s.states i (get_light_state st) hs hd)
      · rw [show handle_save_state g (i :: rest) s =
          handle_save_state g rest s by simp [handle_save_state, hd]]
        exact ih s hs

/-! ### Lemmas on the restore handler -/

theorem restore_go_append_fail (d : ServiceData → Bool) (t : Rat)
    (st : List (String × LightData)) (l₁ l₂ : List String)
    (h : (restore_go d t st l₁).2 = false) :
    restore_go d t st (l₁ ++ l₂) = ((restore_go d t st l₁).1, false) := by
  induction l₁ with
  | nil => simp [restore_go] at h
  | cons i rest ih =>
      rw [List.cons_append]
      cases hl : alookup st i with
      | none =>
          simp only [restore_go, hl] at h ⊢
          exact ih h
      | some dat =>
          by_cases hon : dat.state ≠ STATE_ON
          · simp only [restore_go, hl, if_pos hon] at h ⊢
            exact ih h
          · by_cases hd : d ⟨i, t, dat.attrs.filter (fun p => p.1 ≠ "state")⟩ = true
            · simp only [restore_go, hl, if_neg hon, hd, if_true] at h ⊢
              rw [ih h]
            · rw [Bool.not_eq_true] at hd
              simp only [restore_go, hl, if_neg hon, hd, Bool.false_eq_true,
                if_false] at h ⊢

theorem restore_go_no_turn_off (d : ServiceData → Bool) (t : Rat)
    (st : List (String × LightData)) (l : List String) :
    ((restore_go d t st l).1.all (fun eff => !(isTurnOffCmd eff))) = true := by
  induction l with
  | nil => simp [restore_go]
  | cons i rest ih =>
      cases hl : alookup st i with
      | none => simpa [restore_go, hl] using ih
      | some dat =>
          by_cases hon : dat.state ≠ STATE_ON
          · simpa [restore_go, hl, if_pos hon] using ih
          · by_cases hd : d ⟨i, t, dat.attrs.filter (fun p => !decide (p.1 = "state"))⟩ = true
            · simp [restore_go, hl, if_neg hon, hd, isTurnOffCmd, SERVICE_TURN_ON]
              simpa [isTurnOffCmd] using ih
            · rw [Bool.not_eq_true] at hd
              simp [restore_go, hl, if_neg hon, hd, isTurnOffCmd, SERVICE_TURN_ON]

theorem restore_go_skipped_entity (d : ServiceData → Bool) (t : Rat)
    (st : List (String × LightData)) (l : List String) (i : String)
    (h : ∀ dat, alookup st i = some dat → dat.state ≠ STATE_ON) :
    ((restore_go d t st l).1.all (fun eff => effectEntity eff != i)) = true := by
  induction l with
  | nil => simp [restore_go]
  | cons j rest ih =>
      cases hl : alookup st j with
      | none => simpa [restore_go, hl] using ih
      | some dat =>
          by_cases hon : dat.state ≠ STATE_ON
          · simpa [restore_go, hl, if_pos hon] using ih
          · rw [Classical.not_not] at hon
            have hji : ¬ j = i := by
              intro hji
              exact h dat (hji ▸ hl) hon
            by_cases hd : d ⟨j, t, dat.attrs.filter (fun p => !decide (p.1 = "state"))⟩ = true
            · simp [restore_go, hl, hon, hd, effectEntity, hji]
              simpa [effectEntity] using ih
            · rw [Bool.not_eq_true] at hd
              simp [restore_go, hl, hon, hd, effectEntity, hji]

/-! ### Lemmas on the clear handler -/

theorem handle_clear_states_cons (i : String) (rest : List String)
    (s : ManagerState) :
    handle_clear_states (i :: rest) s =
      handle_clear_states rest { s with states := aerase s.states i } := rfl

theorem clear_states_lookup (ids : List String) (s : ManagerState)
    (i : String) :
    alookup (handle_clear_states ids s).1.states i =
      if ids.contains i then none else alookup s.states i := by
  induction ids generalizing s with
  | nil => simp [handle_clear_states]
  | cons j rest ih =>
      rw [handle_clear_states_cons, ih]
      by_cases hj : i = j
      · subst hj
        by_cases hr : rest.contains i = true <;>
          simp [alookup_aerase, hr, List.contains_cons]
      · by_cases hr : rest.contains i = true <;>
          simp [alookup_aerase, hr, List.contains_cons, hj,
            fun hc : j = i => hj hc.symm]

theorem clear_states_frame (ids : List String) (s : ManagerState) :
    (handle_clear_states ids s).1.motion_active = s.motion_active ∧
    (handle_clear_states ids s).1.setup_complete = s.setup_complete := by
  induction ids generalizing s with
  | nil => exact ⟨rfl, rfl⟩
  | cons j rest ih =>
      rw [handle_clear_states_cons]
      exact ih _

theorem clear_states_keys (ids : List String) (s : ManagerState)
    (hs : storeKeysLight s.states = true) :
    storeKeysLight (handle_clear_states ids s).1.states = true := by
  induction ids generalizing s with
  | nil => exact hs
  | cons j rest ih =>
      rw [handle_clear_states_cons]
      exact ih _ (all_keys_aerase (fun x => strStartsWith x "light.")
        s.states j hs)

/-! ### Lemmas on the motion handlers -/

theorem handle_motion_states (e : ConfigEntry) (ms : List String)
    (i : String) (ns : Option HAState) (s : ManagerState) :
    (handle_motion e ms i ns s).1.states = s.states := by
  by_cases hc : i ∈ ms
  · cases ns <;> simp [handle_motion, hc]
  · cases ns <;> simp [handle_motion, hc]

/-! ### The captured snapshot never stores a `"state"` attribute key -/

theorem get_light_state_attrs_keys (st : HAState) :
    ∀ p ∈ (get_light_state st).attrs, p.1 ∈ trackedAttrs := by
  intro p hp
  simp only [get_light_state] at hp
  rw [List.mem_filterMap] at hp
  obtain ⟨a, ha, hmap⟩ := hp
  cases hmem : alookup st.attributes a with
  | none => rw [hmem] at hmap; simp at hmap
  | some v =>
      rw [hmem] at hmap
      simp only [Option.map_some', Option.some.injEq] at hmap
      rw [← hmap]
      exact ha

theorem get_light_state_attrs_filter (st : HAState) :
    List.filter (fun p => !decide (p.1 = "state"))
      (get_light_state st).attrs = (get_light_state st).attrs := by
  rw [List.filter_eq_self]
  intro p hp
  have hkeys := get_light_state_attrs_keys st p hp
  have hne : ∀ a ∈ trackedAttrs, a ≠ "state" := by decide
  simpa using hne p.1 hkeys

/-! ### Claim theorems -/

/-- C1: saving an identifier whose reported state is ON and then restoring
it issues a turn-on command whose payload carries exactly the tracked
attributes present on the light at save time plus the configured
transition, and nothing else. -/
theorem save_then_restore_turn_on_payload
    (g : String → Option HAState) (driver : ServiceData → Bool)
    (e : ConfigEntry) (s : ManagerState) (i : String) (st : HAState)
    (hdom : strStartsWith i "light." = true)
    (hg : g i = some st) (hon : st.state = STATE_ON) :
    (handle_restore_state driver e [i]
        (handle_save_state g [i] s).1).2.1.head? =
      some (Effect.call "light" SERVICE_TURN_ON
        { entity_id := i, transition := transition_of e,
          attrs := ["brightness", "color_temp", "hs_color", "rgb_color",
                    "xy_color", "effect"].filterMap
            (fun a => (alookup st.attributes a).map (fun v => (a, v))) }) := by
  have hsave : (handle_save_state g [i] s).1 =
      { s with states := ainsert s.states i (get_light_state st) } := by
    simp [handle_save_state, hdom, hg]
  rw [hsave]
  have hlook : alookup (ainsert s.states i (get_light_state st)) i =
      some (get_light_state st) := alookup_ainsert_self _ _ _
  have hstate : (get_light_state st).state = STATE_ON := hon
  have hattrs : (get_light_state st).attrs =
      ["brightness", "color_temp", "hs_color", "rgb_color",
       "xy_color", "effect"].filterMap
        (fun a => (alookup st.attributes a).map (fun v => (a, v))) := rfl
  by_cases hd : driver ⟨i, transition_of e, (get_light_state st).attrs⟩ = true
  · simp [handle_restore_state, restore_go, hlook, hstate,
      get_light_state_attrs_filter, hd, ← hattrs]
  · rw [Bool.not_eq_true] at hd
    simp [handle_restore_state, restore_go, hlook, hstate,
      get_light_state_attrs_filter, hd, ← hattrs]

/-- C1 witness: a light with state `on` and a brightness attribute is
saved and restored; the turn-on payload carries exactly that brightness
and the configured transition of 2 seconds. -/
theorem save_then_restore_turn_on_payload_witness :
    strStartsWith "light.k" "light." = true ∧
    (fun _ => some (HAState.mk "on" [("brightness", Val.num 200)])) "light.k"
      = some (HAState.mk "on" [("brightness", Val.num 200)]) ∧
    (HAState.mk "on" [("brightness", Val.num 200)]).state = STATE_ON ∧
    (handle_restore_state (fun _ => true)
        ⟨⟨some ["light.k"], none, some 2, some 0⟩, ⟨none, none, none, none⟩⟩
        ["light.k"]
        (handle_save_state
          (fun _ => some (HAState.mk "on" [("brightness", Val.num 200)]))
          ["light.k"] initialState).1).2.1.head? =
      some (Effect.call "light" SERVICE_TURN_ON
        ⟨"light.k", 2, [("brightness", Val.num 200)]⟩) :=
  ⟨by decide, rfl, rfl,
   save_then_restore_turn_on_payload
     (fun _ => some (HAState.mk "on" [("brightness", Val.num 200)]))
     (fun _ => true)
     ⟨⟨some ["light.k"], none, some 2, some 0⟩, ⟨none, none, none, none⟩⟩
     initialState "light.k" (HAState.mk "on" [("brightness", Val.num 200)])
     (by decide) rfl rfl⟩

/-- C5: when the manager is Ready, a state-change notification for an
identifier outside the configured motion sensors, or with no new-state
payload, changes nothing and schedules nothing; otherwise it sets the
motion flag of that identifier to (reported state equals the on value),
touches nothing else, and schedules a restore over the configured default
light list exactly when some tracked flag is true. -/
theorem motion_notification_updates_and_schedules (e : ConfigEntry)
    (ms : List String) (i : String) (ns : Option HAState) (s : ManagerState)
    (hms : motionListener e = some ms) (hready : s.setup_complete = true) :
    (i ∉ ms → handle_motion e ms i ns s = (s, none)) ∧
    (ns = none → handle_motion e ms i ns s = (s, none)) ∧
    (∀ st, ns = some st → i ∈ ms →
      (handle_motion e ms i ns s).1.states = s.states ∧
      (handle_motion e ms i ns s).1.setup_complete = s.setup_complete ∧
      alookup (handle_motion e ms i ns s).1.motion_active i =
        some (st.state == STATE_ON) ∧
      (∀ j, j ≠ i → alookup (handle_motion e ms i ns s).1.motion_active j =
        alookup s.motion_active j) ∧
      ((handle_motion e ms i ns s).2 =
        if (handle_motion e ms i ns s).1.motion_active.any (fun p => p.2)
        then some (lights_of e) else none)) := by
  refine ⟨?_, ?_, ?_⟩
  · intro hc
    simp [handle_motion, hc]
  · intro hns
    subst hns
    by_cases hc : i ∈ ms <;> simp [handle_motion, hc]
  · intro st hns hc
    subst hns
    have hr : handle_motion e ms i (some st) s =
        (ManagerState.mk s.states
          (ainsert s.motion_active i (st.state == STATE_ON)) s.setup_complete,
         handle_motion_change e
           (ManagerState.mk s.states
             (ainsert s.motion_active i (st.state == STATE_ON))
             s.setup_complete)) := by
      simp [handle_motion, hc]
    rw [hr]
    refine ⟨rfl, rfl, alookup_ainsert_self _ _ _,
      fun j hj => alookup_ainsert_ne _ _ _ _ hj, ?_⟩
    simp [handle_motion_change, hready]

/-- C5 witness: a configured motion sensor reports `on`; its flag is set
and a restore over the configured default light list is scheduled. -/
theorem motion_notification_updates_and_schedules_witness :
    motionListener ⟨⟨some ["light.k"], some ["binary_sensor.m"], none, none⟩,
      ⟨none, none, none, none⟩⟩ = some ["binary_sensor.m"] ∧
    (handle_motion ⟨⟨some ["light.k"], some ["binary_sensor.m"], none, none⟩,
        ⟨none, none, none, none⟩⟩ ["binary_sensor.m"] "binary_sensor.m"
        (some (HAState.mk "on" [])) ⟨[], [], true⟩).1.states = [] ∧
    alookup (handle_motion
        ⟨⟨some ["light.k"], some ["binary_sensor.m"], none, none⟩,
          ⟨none, none, none, none⟩⟩ ["binary_sensor.m"] "binary_sensor.m"
        (some (HAState.mk "on" [])) ⟨[], [], true⟩).1.motion_active
      "binary_sensor.m" = some true ∧
    (handle_motion ⟨⟨some ["light.k"], some ["binary_sensor.m"], none, none⟩,
        ⟨none, none, none, none⟩⟩ ["binary_sensor.m"] "binary_sensor.m"
        (some (HAState.mk "on" [])) ⟨[], [], true⟩).2 = some ["light.k"] :=
  by
    have T := (motion_notification_updates_and_schedules
      ⟨⟨some ["light.k"], some ["binary_sensor.m"], none, none⟩,
        ⟨none, none, none, none⟩⟩ ["binary_sensor.m"] "binary_sensor.m"
      (some (HAState.mk "on" [])) ⟨[], [], true⟩ rfl rfl).2.2
      (HAState.mk "on" []) rfl (by decide)
    exact ⟨rfl, T.1, T.2.2.1, T.2.2.2.2⟩

/-- C3 counterexample: before setup completes, a save-state call is not a
no-op — it modifies the store and fires a saved notification, refuting
the claim that every operation invoked before Ready is a no-op. -/
theorem pre_ready_save_not_noop :
    initialState.setup_complete = false ∧
    (handle_save_state
        (fun i => if i = "light.a" then some (HAState.mk "on" []) else none)
        ["light.a"] initialState).1.states ≠ initialState.states ∧
    (handle_save_state
        (fun i => if i = "light.a" then some (HAState.mk "on" []) else none)
        ["light.a"] initialState).2 ≠ [] := by
  refine ⟨rfl, ?_, ?_⟩ <;> decide

/-- C3 (amended): only the interval-save and motion-change handlers are
guarded by the setup-complete flag: before Ready a timer tick is a no-op
and a motion notification schedules no restore and leaves the store
unchanged (though it may still record a motion flag); the save, restore
and clear handlers are not guarded. -/
theorem pre_ready_guarded_handlers_noop (g : String → Option HAState)
    (e : ConfigEntry) (s : ManagerState) (h : s.setup_complete = false) :
    handle_interval_save g e s = (s, []) ∧
    handle_motion_change e s = none ∧
    (∀ ms i ns, (handle_motion e ms i ns s).2 = none) ∧
    (∀ ms i ns, (handle_motion e ms i ns s).1.states = s.states) := by
  refine ⟨by simp [handle_interval_save, h],
    by simp [handle_motion_change, h], ?_,
    fun ms i ns => handle_motion_states e ms i ns s⟩
  intro ms i ns
  by_cases hc : i ∈ ms
  · cases ns with
    | none => simp [handle_motion, hc]
    | some st => simp [handle_motion, hc, handle_motion_change, h]
  · cases ns <;> simp [handle_motion, hc]

/-- C3 (amended) witness: with the flag down, a timer tick returns the
state unchanged and a motion notification schedules nothing. -/
theorem pre_ready_guarded_handlers_noop_witness :
    (ManagerState.mk [] [("binary_sensor.m", true)] false).setup_complete
      = false ∧
    handle_interval_save (fun _ => none)
        ⟨⟨some ["light.a"], none, none, none⟩, ⟨none, none, none, none⟩⟩
        (ManagerState.mk [] [("binary_sensor.m", true)] false) =
      (ManagerState.mk [] [("binary_sensor.m", true)] false, []) ∧
    handle_motion_change
        ⟨⟨some ["light.a"], none, none, none⟩, ⟨none, none, none, none⟩⟩
        (ManagerState.mk [] [("binary_sensor.m", true)] false) = none :=
  ⟨rfl,
   (pre_ready_guarded_handlers_noop (fun _ => none)
     ⟨⟨some ["light.a"], none, none, none⟩, ⟨none, none, none, none⟩⟩
     (ManagerState.mk [] [("binary_sensor.m", true)] false) rfl).1,
   (pre_ready_guarded_handlers_noop (fun _ => none)
     ⟨⟨some ["light.a"], none, none, none⟩, ⟨none, none, none, none⟩⟩
     (ManagerState.mk [] [("binary_sensor.m", true)] false) rfl).2.1⟩

/-- C2: for every input list and store contents, the restore operation
never issues a turn-off command, and for each identifier with no stored
snapshot or a snapshot whose powerState is not ON, restore issues no
command and emits no notification for that identifier. -/
theorem restore_never_turn_off_and_skips_silently
    (driver : ServiceData → Bool) (e : ConfigEntry) (ids : List String)
    (s : ManagerState) :
    (((handle_restore_state driver e ids s).2.1.all
        (fun eff => !(isTurnOffCmd eff))) = true) ∧
    (∀ i, skippedAtRestore s i = true →
      ((handle_restore_state driver e ids s).2.1.all
        (fun eff => effectEntity eff != i)) = true) := by
  constructor
  · exact restore_go_no_turn_off driver (transition_of e) s.states ids
  · intro i hi
    apply restore_go_skipped_entity
    intro dat hdat
    simp only [skippedAtRestore, hdat] at hi
    simpa using hi

/-- C2 witness: concrete instance with one stored ON snapshot and one
identifier with no snapshot. -/
theorem restore_never_turn_off_and_skips_silently_witness :
    skippedAtRestore ⟨[("light.a", LightData.mk "on" [])], [], true⟩
      "light.b" = true ∧
    ((handle_restore_state (fun _ => true)
        ⟨⟨none, none, none, none⟩, ⟨none, none, none, none⟩⟩
        ["light.b", "light.a"]
        ⟨[("light.a", LightData.mk "on" [])], [], true⟩).2.1.all
      (fun eff => !(isTurnOffCmd eff))) = true ∧
    ((handle_restore_state (fun _ => true)
        ⟨⟨none, none, none, none⟩, ⟨none, none, none, none⟩⟩
        ["light.b", "light.a"]
        ⟨[("light.a", LightData.mk "on" [])], [], true⟩).2.1.all
      (fun eff => effectEntity eff != "light.b")) = true :=
  ⟨by decide,
   (restore_never_turn_off_and_skips_silently _ _ _ _).1,
   (restore_never_turn_off_and_skips_silently _ _ _ _).2 "light.b"
     (by decide)⟩

/-- C4: restore never modifies the manager state, and if the turn-on
command for an identifier fails, the failure propagates, the effects are
exactly those of the failed prefix, and nothing is issued or emitted for
any identifier after the failing one. -/
theorem restore_failure_aborts_and_preserves_state
    (driver : ServiceData → Bool) (e : ConfigEntry) (s : ManagerState) :
    (∀ ids, (handle_restore_state driver e ids s).1 = s) ∧
    (∀ l₁ l₂, (restore_go driver (transition_of e) s.states l₁).2 = false →
      handle_restore_state driver e (l₁ ++ l₂) s =
        (s, (restore_go driver (transition_of e) s.states l₁).1, false)) := by
  refine ⟨fun ids => rfl, fun l₁ l₂ h => ?_⟩
  unfold handle_restore_state
  rw [restore_go_append_fail driver (transition_of e) s.states l₁ l₂ h]

/-- C4 witness: a driver that fails on `light.a` aborts the rest of the
list and leaves the state untouched. -/
theorem restore_failure_aborts_and_preserves_state_witness :
    (restore_go (fun sd => sd.entity_id != "light.a")
      (transition_of ⟨⟨none, none, none, none⟩, ⟨none, none, none, none⟩⟩)
      [("light.a", LightData.mk "on" []), ("light.b", LightData.mk "on" [])]
      ["light.a"]).2 = false ∧
    handle_restore_state (fun sd => sd.entity_id != "light.a")
        ⟨⟨none, none, none, none⟩, ⟨none, none, none, none⟩⟩
        (["light.a"] ++ ["light.b"])
        ⟨[("light.a", LightData.mk "on" []),
          ("light.b", LightData.mk "on" [])], [], true⟩ =
      (⟨[("light.a", LightData.mk "on" []),
         ("light.b", LightData.mk "on" [])], [], true⟩,
       (restore_go (fun sd => sd.entity_id != "light.a")
         (transition_of ⟨⟨none, none, none, none⟩, ⟨none, none, none, none⟩⟩)
         [("light.a", LightData.mk "on" []), ("light.b", LightData.mk "on" [])]
         ["light.a"]).1, false) :=
  ⟨by decide,
   (restore_failure_aborts_and_preserves_state _ _ _).2
     ["light.a"] ["light.b"] (by decide)⟩

/-- C6: the save operation processes identifiers in input order; an
identifier that is skipped (wrong domain or no current state) creates no
store entry and no notification, and removing it from the list leaves the
result of the whole save unchanged. -/
theorem save_skips_silently_in_order (g : String → Option HAState)
    (s : ManagerState) :
    (∀ i, skipSave g i = true → handle_save_state g [i] s = (s, [])) ∧
    (∀ l₁ l₂ i, skipSave g i = true →
      handle_save_state g (l₁ ++ i :: l₂) s =
        handle_save_state g (l₁ ++ l₂) s) ∧
    (∀ l₁ l₂, handle_save_state g (l₁ ++ l₂) s =
      ((handle_save_state g l₂ (handle_save_state g l₁ s).1).1,
       (handle_save_state g l₁ s).2 ++
         (handle_save_state g l₂ (handle_save_state g l₁ s).1).2)) := by
  refine ⟨fun i h => handle_save_state_skip g i [] s h, ?_,
    fun l₁ l₂ => handle_save_state_append g l₁ l₂ s⟩
  intro l₁ l₂ i h
  rw [handle_save_state_append g l₁ (i :: l₂) s,
      handle_save_state_skip g i l₂ _ h,
      handle_save_state_append g l₁ l₂ s]

/-- C6 witness: a `switch.x` identifier is skipped and drops out of the
processing of a surrounding list. -/
theorem save_skips_silently_in_order_witness :
    skipSave (fun i => if i = "light.a"
        then some (HAState.mk "on" []) else none) "switch.x" = true ∧
    handle_save_state (fun i => if i = "light.a"
        then some (HAState.mk "on" []) else none) ["switch.x"] initialState =
      (initialState, []) ∧
    handle_save_state (fun i => if i = "light.a"
        then some (HAState.mk "on" []) else none)
        (["light.a"] ++ "switch.x" :: []) initialState =
      handle_save_state (fun i => if i = "light.a"
        then some (HAState.mk "on" []) else none)
        (["light.a"] ++ []) initialState :=
  ⟨by decide,
   (save_skips_silently_in_order _ _).1 "switch.x" (by decide),
   (save_skips_silently_in_order _ _).2.1 ["light.a"] [] "switch.x"
     (by decide)⟩

/-- C7: a configured save interval of 0 registers no periodic timer, and a
timer tick after setup completes runs a save over the statically configured
default light list. -/
theorem interval_save_zero_and_default_lights (g : String → Option HAState)
    (e : ConfigEntry) (s : ManagerState) :
    (save_interval_of e = 0 → timerRegistered e = false) ∧
    (s.setup_complete = true →
      handle_interval_save g e s = handle_save_state g (lights_of e) s) := by
  constructor
  · intro h
    simp [timerRegistered, h]
  · intro h
    simp [handle_interval_save, h]

/-- C7 witness: an entry with `save_interval = 0` and a Ready manager. -/
theorem interval_save_zero_and_default_lights_witness :
    save_interval_of
      ⟨⟨some ["light.a"], none, none, some 0⟩, ⟨none, none, none, none⟩⟩ = 0 ∧
    timerRegistered
      ⟨⟨some ["light.a"], none, none, some 0⟩, ⟨none, none, none, none⟩⟩
      = false ∧
    handle_interval_save (fun _ => none)
        ⟨⟨some ["light.a"], none, none, some 0⟩, ⟨none, none, none, none⟩⟩
        ⟨[], [], true⟩ =
      handle_save_state (fun _ => none)
        (lights_of
          ⟨⟨some ["light.a"], none, none, some 0⟩, ⟨none, none, none, none⟩⟩)
        ⟨[], [], true⟩ :=
  ⟨rfl,
   (interval_save_zero_and_default_lights (fun _ => none) _ ⟨[], [], true⟩).1
     rfl,
   (interval_save_zero_and_default_lights (fun _ => none) _ ⟨[], [], true⟩).2
     rfl⟩

/-- C8: clear removes exactly the listed identifiers' snapshots, ignores
absent identifiers, leaves unlisted snapshots, the motion map and the
setup flag unchanged, and emits nothing. -/
theorem clear_removes_exactly_listed (ids : List String) (s : ManagerState) :
    (handle_clear_states ids s).2 = [] ∧
    (handle_clear_states ids s).1.motion_active = s.motion_active ∧
    (handle_clear_states ids s).1.setup_complete = s.setup_complete ∧
    (∀ i, ids.contains i = true →
      alookup (handle_clear_states ids s).1.states i = none) ∧
    (∀ i, ids.contains i = false →
      alookup (handle_clear_states ids s).1.states i = alookup s.states i) := by
  refine ⟨rfl, (clear_states_frame ids s).1, (clear_states_frame ids s).2,
    fun i hi => ?_, fun i hi => ?_⟩
  · rw [clear_states_lookup, if_pos hi]
  · rw [clear_states_lookup, if_neg (by simpa using hi)]

/-- C8 witness: clearing `light.a` (stored) and `light.c` (absent) removes
only `light.a` and leaves `light.b` and the motion map alone. -/
theorem clear_removes_exactly_listed_witness :
    (handle_clear_states ["light.a", "light.c"]
      ⟨[("light.a", LightData.mk "on" []), ("light.b", LightData.mk "off" [])],
       [("m", true)], true⟩).2 = [] ∧
    (handle_clear_states ["light.a", "light.c"]
      ⟨[("light.a", LightData.mk "on" []), ("light.b", LightData.mk "off" [])],
       [("m", true)], true⟩).1.motion_active = [("m", true)] ∧
    alookup (handle_clear_states ["light.a", "light.c"]
      ⟨[("light.a", LightData.mk "on" []), ("light.b", LightData.mk "off" [])],
       [("m", true)], true⟩).1.states "light.a" = none ∧
    alookup (handle_clear_states ["light.a", "light.c"]
      ⟨[("light.a", LightData.mk "on" []), ("light.b", LightData.mk "off" [])],
       [("m", true)], true⟩).1.states "light.b" =
      alookup [("light.a", LightData.mk "on" []),
        ("light.b", LightData.mk "off" [])] "light.b" :=
  ⟨(clear_removes_exactly_listed _ _).1,
   (clear_removes_exactly_listed _ _).2.1,
   (clear_removes_exactly_listed _ _).2.2.2.1 "light.a" (by decide),
   (clear_removes_exactly_listed _ _).2.2.2.2 "light.b" (by decide)⟩

/-- C9: two config entries with identical data and different options give
identical behavior for every entry-dependent operation: the manager reads
only the entry's original data. -/
theorem options_do_not_affect_behavior (e₁ e₂ : ConfigEntry)
    (h : e₁.data = e₂.data) :
    (∀ driver ids s, handle_restore_state driver e₁ ids s =
      handle_restore_state driver e₂ ids s) ∧
    (∀ g s, handle_interval_save g e₁ s = handle_interval_save g e₂ s) ∧
    (∀ s, handle_motion_change e₁ s = handle_motion_change e₂ s) ∧
    (∀ ms i ns s, handle_motion e₁ ms i ns s = handle_motion e₂ ms i ns s) ∧
    motionListener e₁ = motionListener e₂ ∧
    timerRegistered e₁ = timerRegistered e₂ ∧
    transition_of e₁ = transition_of e₂ ∧
    lights_of e₁ = lights_of e₂ := by
  obtain ⟨d₁, o₁⟩ := e₁
  obtain ⟨d₂, o₂⟩ := e₂
  obtain rfl : d₁ = d₂ := h
  exact ⟨fun _ _ _ => rfl, fun _ _ => rfl, fun _ => rfl, fun _ _ _ _ => rfl,
    rfl, rfl, rfl, rfl⟩

/-- C9 witness: same data, different options (as the options flow writes
them) — identical timer registration and interval-save behavior. -/
theorem options_do_not_affect_behavior_witness :
    (ConfigEntry.mk ⟨some ["light.a"], none, some 2, some 60⟩
        ⟨some [], some ["binary_sensor.m"], some 5, some 3600⟩).data =
      (ConfigEntry.mk ⟨some ["light.a"], none, some 2, some 60⟩
        ⟨none, none, none, none⟩).data ∧
    handle_interval_save (fun _ => none)
        (ConfigEntry.mk ⟨some ["light.a"], none, some 2, some 60⟩
          ⟨some [], some ["binary_sensor.m"], some 5, some 3600⟩)
        ⟨[], [], true⟩ =
      handle_interval_save (fun _ => none)
        (ConfigEntry.mk ⟨some ["light.a"], none, some 2, some 60⟩
          ⟨none, none, none, none⟩) ⟨[], [], true⟩ ∧
    timerRegistered
        (ConfigEntry.mk ⟨some ["light.a"], none, some 2, some 60⟩
          ⟨some [], some ["binary_sensor.m"], some 5, some 3600⟩) =
      timerRegistered
        (ConfigEntry.mk ⟨some ["light.a"], none, some 2, some 60⟩
          ⟨none, none, none, none⟩) :=
  ⟨rfl,
   (options_do_not_affect_behavior _ _ rfl).2.1 (fun _ => none) ⟨[], [], true⟩,
   (options_do_not_affect_behavior _ _ rfl).2.2.2.2.2.1⟩

/-- C10: every key of the snapshot store starts with `light.`: true of the
empty initial store, preserved by save (only inserts prefixed keys), by
restore and the motion handler (never touch the store), by clear (only
removes keys), and by the interval save. -/
theorem store_keys_light_invariant :
    (storeKeysLight initialState.states = true) ∧
    (∀ g ids s, storeKeysLight s.states = true →
      storeKeysLight (handle_save_state g ids s).1.states = true) ∧
    (∀ driver e ids s,
      (handle_restore_state driver e ids s).1.states = s.states) ∧
    (∀ ids s, storeKeysLight s.states = true →
      storeKeysLight (handle_clear_states ids s).1.states = true) ∧
    (∀ g e s, storeKeysLight s.states = true →
      storeKeysLight (handle_interval_save g e s).1.states = true) ∧
    (∀ e ms i ns s, (handle_motion e ms i ns s).1.states = s.states) := by
  refine ⟨rfl, handle_save_state_keys, fun _ _ _ _ => rfl,
    clear_states_keys, ?_, handle_motion_states⟩
  intro g e s hs
  unfold handle_interval_save
  by_cases h : s.setup_complete
  · simp only [h, Bool.not_true, Bool.false_eq_true, if_false]
    exact handle_save_state_keys g (lights_of e) s hs
  · simp only [Bool.not_eq_true] at h
    simp only [h, Bool.not_false, if_true]
    exact hs

/-- C10 witness: the invariant holds on a concrete store and is preserved
by a concrete save and a concrete clear. -/
theorem store_keys_light_invariant_witness :
    storeKeysLight
      (ManagerState.mk [("light.a", LightData.mk "on" [])] [] true).states
      = true ∧
    storeKeysLight (handle_save_state
      (fun i => if i = "light.b" then some (HAState.mk "on" []) else none)
      ["light.b"]
      (ManagerState.mk [("light.a", LightData.mk "on" [])] [] true)).1.states
      = true ∧
    storeKeysLight (handle_clear_states ["light.a"]
      (ManagerState.mk [("light.a", LightData.mk "on" [])] [] true)).1.states
      = true :=
  ⟨by decide,
   store_keys_light_invariant.2.1
     (fun i => if i = "light.b" then some (HAState.mk "on" []) else none)
     ["light.b"] (ManagerState.mk [("light.a", LightData.mk "on" [])] [] true)
     (by decide),
   store_keys_light_invariant.2.2.2.1 ["light.a"]
     (ManagerState.mk [("light.a", LightData.mk "on" [])] [] true)
     (by decide)⟩

end LightStateManagement
